import Mathlib

/-!
Shallow embedding of the bank-account management system.

The reference implementation is the SQLite-backed iteration (`mainv2.py`):
a `BankDatabase` owning two tables (`accounts`, `transactions`) and a
`BankAccount` session bound to one `account_id` with a cached `balance`.
Monetary values (SQLite `REAL`) are modelled as `Rat`; timestamps
(`CURRENT_TIMESTAMP`) as `Nat`; SQL `NULL` as `Option`.  Each operation
takes the timestamp the database would assign as an explicit argument.
The earliest in-memory iteration (`main.py`) is embedded at the end for
reference, since the specification discusses its missing balance check.
-/

/-- A row of the `accounts` table (`mainv2.py`, `create_tables`). -/
structure Account where
  account_id : Nat
  account_holder : String
  bank_name : String
  balance : Rat
  created_at : Nat
deriving DecidableEq

/-- A row of the `transactions` table (`mainv2.py`, `create_tables`).
`action` is the stored TEXT value; the schema CHECK constraint restricts it to
`'Deposit'`, `'Withdrawal'`, `'Balance Check'`. -/
structure Transaction where
  transaction_id : Nat
  account_id : Nat
  action : String
  amount : Option Rat
  source_or_reason : Option String
  balance_after : Rat
  transaction_date : Nat
deriving DecidableEq

/-- The persistent state owned by `BankDatabase`: both tables plus the
autoincrement counters for the two primary keys. -/
structure DB where
  accounts : List Account
  transactions : List Transaction
  next_account_id : Nat
  next_transaction_id : Nat
deriving DecidableEq

/-- `BankDatabase.create_tables` on a fresh database file: both tables empty,
SQLite AUTOINCREMENT assigns ids starting from 1. -/
def initDB : DB := ⟨[], [], 1, 1⟩

/-- `SELECT account_id, balance FROM accounts WHERE account_holder = ?` followed by
`fetchone()`: the first row whose holder name matches exactly (case-sensitive). -/
def findByHolder (db : DB) (holder : String) : Option Account :=
  db.accounts.find? (fun a => a.account_holder == holder)

/-- `SELECT balance FROM accounts WHERE account_id = ?` followed by `fetchone()`. -/
def findAccount (db : DB) (aid : Nat) : Option Account :=
  db.accounts.find? (fun a => a.account_id == aid)

/-- `UPDATE accounts SET balance = ? WHERE account_id = ?`. -/
def updateBalance (db : DB) (aid : Nat) (newBal : Rat) : DB :=
  { db with
    accounts := db.accounts.map
      (fun a => if a.account_id == aid then { a with balance := newBal } else a) }

/-- `INSERT INTO transactions (...)`: appends one row, the autoincrement id being
`next_transaction_id`, and `transaction_date` the current timestamp. -/
def appendTransaction (db : DB) (aid : Nat) (act : String) (amt : Option Rat)
    (src : Option String) (balAfter : Rat) (now : Nat) : DB :=
  { db with
    transactions := db.transactions ++
      [⟨db.next_transaction_id, aid, act, amt, src, balAfter, now⟩],
    next_transaction_id := db.next_transaction_id + 1 }

/-- The in-memory state of a `BankAccount` object: the holder/bank it was opened
with, the bound `account_id` and the cached copy of `balance`. -/
structure Session where
  account_holder : String
  bank_name : String
  account_id : Nat
  balance : Rat
deriving DecidableEq

/-- Combined state: the database plus one open session. -/
structure SysState where
  db : DB
  session : Session
deriving DecidableEq

/-- Result of `create_or_retrieve_account`: the (possibly extended) database, the
account id and balance loaded into the session, and whether a row was created. -/
structure FindOrCreateResult where
  db : DB
  account_id : Nat
  balance : Rat
  created : Bool
deriving DecidableEq

/-- `BankAccount.create_or_retrieve_account`: look the holder up by name; if found,
return its id and balance; otherwise insert a new row with balance 0 and
`created_at = now`, and return the freshly assigned id. -/
def create_or_retrieve_account (db : DB) (holder bank : String) (now : Nat) :
    FindOrCreateResult :=
  match findByHolder db holder with
  | some a => ⟨db, a.account_id, a.balance, false⟩
  | none =>
    ⟨{ db with
        accounts := db.accounts ++ [⟨db.next_account_id, holder, bank, 0, now⟩],
        next_account_id := db.next_account_id + 1 },
      db.next_account_id, 0, true⟩

/-- `BankAccount.__init__`: bind a session to the holder's account, creating it
if absent, and cache the returned id and balance. -/
def BankAccount_init (db : DB) (holder bank : String) (now : Nat) : SysState :=
  let r := create_or_retrieve_account db holder bank now
  ⟨r.db, ⟨holder, bank, r.account_id, r.balance⟩⟩

/-- The two validation failures of `deposit`/`withdraw`; the source signals them by
printing a message and returning `False` before touching any stored state. -/
inductive OpError where
  | invalidAmount
  | insufficientFunds
deriving DecidableEq

/-- Outcome reported by `deposit`/`withdraw`: the new balance on success
(the value the source prints as "Current Balance"), or the validation error. -/
inductive OpResult where
  | ok (newBalance : Rat)
  | err (e : OpError)
deriving DecidableEq

/-- `BankAccount.deposit`: reject non-positive amounts; otherwise add to the cached
balance, write it back, and append a `'Deposit'` transaction row. -/
def deposit (st : SysState) (amount : Rat) (source : String) (now : Nat) :
    SysState × OpResult :=
  if amount ≤ 0 then (st, .err .invalidAmount)
  else
    let newBal := st.session.balance + amount
    let db := appendTransaction (updateBalance st.db st.session.account_id newBal)
      st.session.account_id "Deposit" (some amount) (some source) newBal now
    (⟨db, { st.session with balance := newBal }⟩, .ok newBal)

/-- `BankAccount.withdraw`: reject non-positive amounts, then reject amounts above
the balance; otherwise subtract, write back, and append a `'Withdrawal'` row. -/
def withdraw (st : SysState) (amount : Rat) (reason : String) (now : Nat) :
    SysState × OpResult :=
  if amount ≤ 0 then (st, .err .invalidAmount)
  else if st.session.balance < amount then (st, .err .insufficientFunds)
  else
    let newBal := st.session.balance - amount
    let db := appendTransaction (updateBalance st.db st.session.account_id newBal)
      st.session.account_id "Withdrawal" (some amount) (some reason) newBal now
    (⟨db, { st.session with balance := newBal }⟩, .ok newBal)

/-- `BankAccount.check_balance`: re-read the balance from the `accounts` table
(keeping the cached value only if the row is missing), append a `'Balance Check'`
row with NULL amount and NULL source, and report the refreshed balance. -/
def check_balance (st : SysState) (now : Nat) : SysState × Rat :=
  let bal :=
    match findAccount st.db st.session.account_id with
    | some a => a.balance
    | none => st.session.balance
  let db := appendTransaction st.db st.session.account_id "Balance Check" none none bal now
  (⟨db, { st.session with balance := bal }⟩, bal)

/-- One step of a stable insertion sort by descending `transaction_date`: the new
element is placed before the first element whose date is not larger, so elements
with equal dates keep their original relative order. -/
def insertByDateDesc (t : Transaction) : List Transaction → List Transaction
  | [] => [t]
  | u :: us =>
    if t.transaction_date < u.transaction_date then u :: insertByDateDesc t us
    else t :: u :: us

/-- Stable sort by descending `transaction_date`. -/
def sortByDateDesc : List Transaction → List Transaction
  | [] => []
  | t :: ts => insertByDateDesc t (sortByDateDesc ts)

/-- `BankAccount.get_transaction_history`:
`SELECT ... FROM transactions WHERE account_id = ? ORDER BY transaction_date DESC`.
The table scan yields the account's rows in insertion (rowid) order; the ORDER BY,
which names only `transaction_date`, is modelled as a stable sort of that scan. -/
def get_transaction_history (st : SysState) : List Transaction :=
  sortByDateDesc (st.db.transactions.filter (fun t => t.account_id == st.session.account_id))

/-- One user intent from the menu loop, with the timestamp the database would
assign to any row it writes. -/
inductive Op where
  | depositOp (amount : Rat) (source : String) (now : Nat)
  | withdrawOp (amount : Rat) (reason : String) (now : Nat)
  | checkBalanceOp (now : Nat)
deriving DecidableEq

/-- Apply one operation to the combined state, discarding the reported value. -/
def applyOp (st : SysState) : Op → SysState
  | .depositOp a s t => (deposit st a s t).1
  | .withdrawOp a r t => (withdraw st a r t).1
  | .checkBalanceOp t => (check_balance st t).1

/-- Run a sequence of operations left to right. -/
def runOps (st : SysState) : List Op → SysState
  | [] => st
  | op :: ops => runOps (applyOp st op) ops

/-- The amount a single operation deposits: its amount if it is a deposit that
passes the positivity guard, 0 otherwise. -/
def opDeposited : Op → Rat
  | .depositOp a _ _ => if a ≤ 0 then 0 else a
  | _ => 0

/-- The amount a single operation withdraws when the balance is `b`: its amount
if it is a withdrawal that passes both guards, 0 otherwise. -/
def opWithdrawn (b : Rat) : Op → Rat
  | .withdrawOp a _ _ => if a ≤ 0 then 0 else if b < a then 0 else a
  | _ => 0

/-- Sum of the amounts of the deposits in `ops` that succeed when the sequence is
run from `st` (a deposit succeeds exactly when its amount is positive). -/
def depositTotal (st : SysState) : List Op → Rat
  | [] => 0
  | op :: ops => opDeposited op + depositTotal (applyOp st op) ops

/-- Sum of the amounts of the withdrawals in `ops` that succeed when the sequence
is run from `st` (positive amount and not exceeding the balance at that point). -/
def withdrawTotal (st : SysState) : List Op → Rat
  | [] => 0
  | op :: ops => opWithdrawn st.session.balance op + withdrawTotal (applyOp st op) ops

/-- The session's cached balance agrees with the stored balance of its account row
whenever that row exists.  This holds throughout a single-session run. -/
def synced (st : SysState) : Prop :=
  ∀ a, findAccount st.db st.session.account_id = some a → a.balance = st.session.balance

/-- Transaction-table well-formedness: ids strictly increase along the table and
stay below the autoincrement counter. -/
def TxInv (db : DB) : Prop :=
  db.transactions.Pairwise (fun t u => t.transaction_id < u.transaction_id) ∧
  ∀ t ∈ db.transactions, t.transaction_id < db.next_transaction_id

/-- The closed set of `action` values admitted by the schema CHECK constraint. -/
def validActions : List String := ["Deposit", "Withdrawal", "Balance Check"]

/-- Every stored transaction row carries one of the three admitted actions. -/
def ActionsOk (db : DB) : Prop := ∀ t ∈ db.transactions, t.action ∈ validActions

/-- Preconditions for opening a session that creates the holder's account: the
holder name is absent and the autoincrement counter is genuinely fresh. -/
def FreshFor (db : DB) (holder : String) : Prop :=
  findByHolder db holder = none ∧ ∀ a ∈ db.accounts, a.account_id ≠ db.next_account_id

/-- The in-memory account of the first iteration (`main.py`). -/
structure V1Account where
  account_holder : String
  bank_name : String
  balance : Rat
deriving DecidableEq

/-- `main.py`'s `BankAccount.deposit`: unconditionally adds the amount. -/
def v1_deposit (acct : V1Account) (amount : Rat) : V1Account :=
  { acct with balance := acct.balance + amount }

/-- `main.py`'s `BankAccount.withdraw`: the balance mutation and the sufficiency
check are commented out, so the state is returned unchanged and no failure is
signalled — the defect the specification flags as not to be replicated. -/
def v1_withdraw (acct : V1Account) (_amount : Rat) : V1Account := acct

example : v1_withdraw ⟨"A", "B", 10⟩ 1000 = ⟨"A", "B", 10⟩ := rfl

/-! ### Basic lemmas about the store operations -/

/-- `find?` skips a prefix in which nothing matches. -/
theorem find?_append_none {α : Type} (p : α → Bool) (l₁ l₂ : List α)
    (h : l₁.find? p = none) : (l₁ ++ l₂).find? p = l₂.find? p := by
  rw [List.find?_append, h, Option.none_or]

/-- The balance UPDATE rewrites the balance of the row `findAccount` locates and
changes no other field and no other row's match status. -/
theorem find?_map_updateBalance (l : List Account) (aid : Nat) (b : Rat) :
    (l.map (fun a => if a.account_id == aid then { a with balance := b } else a)).find?
        (fun a => a.account_id == aid) =
      (l.find? (fun a => a.account_id == aid)).map (fun a => { a with balance := b }) := by
  induction l with
  | nil => rfl
  | cons a l ih =>
    by_cases h : (a.account_id == aid) = true
    · have h' : (({ a with balance := b } : Account).account_id == aid) = true := h
      rw [List.map_cons, if_pos h,
        List.find?_cons_of_pos (p := fun x : Account => x.account_id == aid) _ h',
        List.find?_cons_of_pos (p := fun x : Account => x.account_id == aid) _ h,
        Option.map_some']
    · rw [List.map_cons, if_neg h,
        List.find?_cons_of_neg (p := fun x : Account => x.account_id == aid) _ h,
        List.find?_cons_of_neg (p := fun x : Account => x.account_id == aid) _ h, ih]

/-- `findAccount` after the balance UPDATE. -/
theorem findAccount_updateBalance (db : DB) (aid : Nat) (b : Rat) :
    findAccount (updateBalance db aid b) aid =
      (findAccount db aid).map (fun a => { a with balance := b }) :=
  find?_map_updateBalance db.accounts aid b

/-- Appending a transaction row does not touch the `accounts` table. -/
theorem findAccount_appendTransaction (db : DB) (aid aid2 : Nat) (act : String)
    (amt : Option Rat) (src : Option String) (bal : Rat) (now : Nat) :
    findAccount (appendTransaction db aid2 act amt src bal now) aid = findAccount db aid := rfl

/-! ### The history sort: permutation, sortedness, stability -/

/-- Inserting permutes: the result contains the new row and the old ones. -/
theorem insertByDateDesc_perm (t : Transaction) (l : List Transaction) :
    (insertByDateDesc t l).Perm (t :: l) := by
  induction l with
  | nil => exact List.Perm.refl _
  | cons u us ih =>
    simp only [insertByDateDesc]
    by_cases h : t.transaction_date < u.transaction_date
    · rw [if_pos h]
      exact (ih.cons u).trans (List.Perm.swap t u us)
    · rw [if_neg h]

/-- The history sort permutes its input: no row is lost or duplicated. -/
theorem sortByDateDesc_perm (l : List Transaction) : (sortByDateDesc l).Perm l := by
  induction l with
  | nil => exact List.Perm.refl _
  | cons t ts ih =>
    exact (insertByDateDesc_perm t (sortByDateDesc ts)).trans (ih.cons t)

/-- The order the history query actually produces: strictly later dates first, and
among equal dates the earlier (smaller) `transaction_id` first, because the sort
is stable over the ascending-rowid scan. -/
def histOrder (a b : Transaction) : Prop :=
  b.transaction_date < a.transaction_date ∨
    (a.transaction_date = b.transaction_date ∧ a.transaction_id < b.transaction_id)

/-- Inserting a row whose id is smaller than every id in the (already ordered)
list preserves `histOrder`. -/
theorem pairwise_insertByDateDesc (t : Transaction) (l : List Transaction)
    (hl : l.Pairwise histOrder)
    (hid : ∀ u ∈ l, t.transaction_id < u.transaction_id) :
    (insertByDateDesc t l).Pairwise histOrder := by
  induction l with
  | nil => simp [insertByDateDesc]
  | cons u us ih =>
    rcases List.pairwise_cons.mp hl with ⟨hu, hus⟩
    simp only [insertByDateDesc]
    by_cases h : t.transaction_date < u.transaction_date
    · rw [if_pos h]
      refine List.pairwise_cons.mpr
        ⟨?_, ih hus (fun v hv => hid v (List.mem_cons_of_mem u hv))⟩
      intro v hv
      rcases List.mem_cons.mp ((insertByDateDesc_perm t us).mem_iff.mp hv) with rfl | hv
      · exact Or.inl h
      · exact hu v hv
    · rw [if_neg h]
      have h' : u.transaction_date ≤ t.transaction_date := le_of_not_lt h
      refine List.pairwise_cons.mpr ⟨?_, hl⟩
      intro v hv
      rcases List.mem_cons.mp hv with rfl | hv
      · rcases lt_or_eq_of_le h' with hlt | heq
        · exact Or.inl hlt
        · exact Or.inr ⟨heq.symm, hid v (List.mem_cons_self v us)⟩
      · have hdate : v.transaction_date ≤ u.transaction_date := by
          rcases hu v hv with hlt | ⟨heq, _⟩
          · exact le_of_lt hlt
          · exact le_of_eq heq.symm
        rcases lt_or_eq_of_le (le_trans hdate h') with hlt | heq
        · exact Or.inl hlt
        · exact Or.inr ⟨heq.symm, hid v (List.mem_cons_of_mem u hv)⟩

/-- Sorting a table slice whose ids strictly increase yields `histOrder`. -/
theorem pairwise_sortByDateDesc (l : List Transaction)
    (hid : l.Pairwise (fun a b => a.transaction_id < b.transaction_id)) :
    (sortByDateDesc l).Pairwise histOrder := by
  induction l with
  | nil => simp [sortByDateDesc]
  | cons t ts ih =>
    rcases List.pairwise_cons.mp hid with ⟨ht, hts⟩
    simp only [sortByDateDesc]
    refine pairwise_insertByDateDesc t _ (ih hts) ?_
    intro u hu
    exact ht u ((sortByDateDesc_perm ts).mem_iff.mp hu)

/-! ### Preservation of the table invariants -/

/-- Appending one row with the next autoincrement id preserves `TxInv`. -/
theorem txInv_appendTransaction (db : DB) (aid : Nat) (act : String) (amt : Option Rat)
    (src : Option String) (bal : Rat) (now : Nat) (h : TxInv db) :
    TxInv (appendTransaction db aid act amt src bal now) := by
  unfold TxInv at h ⊢
  obtain ⟨hpw, hlt⟩ := h
  constructor
  · refine List.pairwise_append.mpr ⟨hpw, List.pairwise_singleton _ _, ?_⟩
    intro a ha b hb
    rw [List.mem_singleton] at hb
    subst hb
    exact hlt a ha
  · intro t ht
    rcases List.mem_append.mp ht with ht | ht
    · exact Nat.lt_succ_of_lt (hlt t ht)
    · rw [List.mem_singleton] at ht
      subst ht
      exact Nat.lt_succ_self _

/-- Appending a row with an admitted action preserves `ActionsOk`. -/
theorem actionsOk_appendTransaction (db : DB) (aid : Nat) (act : String) (amt : Option Rat)
    (src : Option String) (bal : Rat) (now : Nat) (hact : act ∈ validActions)
    (h : ActionsOk db) : ActionsOk (appendTransaction db aid act amt src bal now) := by
  unfold ActionsOk at h ⊢
  intro t ht
  rcases List.mem_append.mp ht with ht | ht
  · exact h t ht
  · rw [List.mem_singleton] at ht
    subst ht
    exact hact

/-- Every operation leaves the session cache in agreement with the stored row. -/
theorem synced_applyOp (st : SysState) (op : Op) (h : synced st) : synced (applyOp st op) := by
  unfold synced at h ⊢
  cases op with
  | depositOp a s t =>
    simp only [applyOp, deposit]
    split_ifs with hle
    · exact h
    · intro x hx
      rw [findAccount_appendTransaction, findAccount_updateBalance] at hx
      rcases Option.map_eq_some'.mp hx with ⟨y, _, rfl⟩
      rfl
  | withdrawOp a r t =>
    simp only [applyOp, withdraw]
    split_ifs with hle hlt
    · exact h
    · exact h
    · intro x hx
      rw [findAccount_appendTransaction, findAccount_updateBalance] at hx
      rcases Option.map_eq_some'.mp hx with ⟨y, _, rfl⟩
      rfl
  | checkBalanceOp t =>
    simp only [applyOp, check_balance]
    intro x hx
    rw [findAccount_appendTransaction] at hx
    cases hfa : findAccount st.db st.session.account_id with
    | none =>
      rw [hfa] at hx
      exact absurd hx (by simp)
    | some a =>
      rw [hfa] at hx
      injection hx with hx
      subst hx
      simp [hfa]

/-- Deposits add a positive amount, withdrawals never exceed the balance, and a
balance check rewrites the cache with the synced stored value: the cached balance
stays non-negative. -/
theorem balance_nonneg_applyOp (st : SysState) (op : Op) (hs : synced st)
    (h : 0 ≤ st.session.balance) : 0 ≤ (applyOp st op).session.balance := by
  cases op with
  | depositOp a s t =>
    simp only [applyOp, deposit]
    split_ifs with hle
    · exact h
    · push_neg at hle
      simp only
      linarith
  | withdrawOp a r t =>
    simp only [applyOp, withdraw]
    split_ifs with hle hlt
    · exact h
    · exact h
    · push_neg at hlt
      simp only
      linarith
  | checkBalanceOp t =>
    simp only [applyOp, check_balance]
    cases hfa : findAccount st.db st.session.account_id with
    | none => simpa [hfa] using h
    | some a =>
      have hb := hs a hfa
      simp only [hfa]
      rw [hb]
      exact h

/-- `TxInv` is preserved by every operation. -/
theorem txInv_applyOp (st : SysState) (op : Op) (h : TxInv st.db) :
    TxInv (applyOp st op).db := by
  cases op with
  | depositOp a s t =>
    simp only [applyOp, deposit]
    split_ifs
    · exact h
    · exact txInv_appendTransaction _ _ _ _ _ _ _ h
  | withdrawOp a r t =>
    simp only [applyOp, withdraw]
    split_ifs
    · exact h
    · exact h
    · exact txInv_appendTransaction _ _ _ _ _ _ _ h
  | checkBalanceOp t =>
    simp only [applyOp, check_balance]
    exact txInv_appendTransaction _ _ _ _ _ _ _ h

/-- `ActionsOk` is preserved by every operation: the three operations write only
the three admitted action strings. -/
theorem actionsOk_applyOp (st : SysState) (op : Op) (h : ActionsOk st.db) :
    ActionsOk (applyOp st op).db := by
  cases op with
  | depositOp a s t =>
    simp only [applyOp, deposit]
    split_ifs
    · exact h
    · exact actionsOk_appendTransaction _ _ _ _ _ _ _ (by simp [validActions]) h
  | withdrawOp a r t =>
    simp only [applyOp, withdraw]
    split_ifs
    · exact h
    · exact h
    · exact actionsOk_appendTransaction _ _ _ _ _ _ _ (by simp [validActions]) h
  | checkBalanceOp t =>
    simp only [applyOp, check_balance]
    exact actionsOk_appendTransaction _ _ _ _ _ _ _ (by simp [validActions]) h

/-- A property preserved by every single operation is preserved by any run. -/
theorem runOps_preserve (P : SysState → Prop)
    (hstep : ∀ st op, P st → P (applyOp st op)) :
    ∀ (ops : List Op) (st : SysState), P st → P (runOps st ops)
  | [], _, h => h
  | op :: ops, st, h => runOps_preserve P hstep ops (applyOp st op) (hstep st op h)

/-! ### Opening a session -/

/-- Opening a session for an absent holder inserts exactly one account row, with
balance 0 and the next autoincrement id, and caches that id and balance. -/
theorem BankAccount_init_fresh (db : DB) (holder bank : String) (now : Nat)
    (h : FreshFor db holder) :
    BankAccount_init db holder bank now =
      ⟨{ db with
          accounts := db.accounts ++ [⟨db.next_account_id, holder, bank, 0, now⟩],
          next_account_id := db.next_account_id + 1 },
        ⟨holder, bank, db.next_account_id, 0⟩⟩ := by
  unfold FreshFor at h
  unfold BankAccount_init create_or_retrieve_account
  rw [h.1]

/-- Right after creating the account, the cache agrees with the stored row and the
balance is 0. -/
theorem synced_init (db : DB) (holder bank : String) (now : Nat) (h : FreshFor db holder) :
    synced (BankAccount_init db holder bank now) ∧
      0 ≤ (BankAccount_init db holder bank now).session.balance := by
  rw [BankAccount_init_fresh db holder bank now h]
  constructor
  · unfold synced findAccount
    intro a ha
    simp only at ha
    rw [find?_append_none] at ha
    · rw [List.find?_cons_of_pos
          (p := fun x : Account => x.account_id == db.next_account_id) _ (by simp)] at ha
      injection ha with ha
      subst ha
      rfl
    · rw [List.find?_eq_none]
      intro x hx
      simpa using h.2 x hx
  · exact le_refl 0

/-- Opening a session never touches the `transactions` table. -/
theorem txInv_init (db : DB) (holder bank : String) (now : Nat) (h : TxInv db) :
    TxInv (BankAccount_init db holder bank now).db := by
  unfold BankAccount_init create_or_retrieve_account
  cases findByHolder db holder <;> exact h

/-- Opening a session writes no transaction row, so `ActionsOk` is kept. -/
theorem actionsOk_init (db : DB) (holder bank : String) (now : Nat) (h : ActionsOk db) :
    ActionsOk (BankAccount_init db holder bank now).db := by
  unfold BankAccount_init create_or_retrieve_account
  cases findByHolder db holder <;> exact h

/-- Cache/store agreement and balance non-negativity hold after any run that
starts from a freshly created account. -/
theorem syncedNonneg_runOps (ops : List Op) (st : SysState)
    (h : synced st ∧ 0 ≤ st.session.balance) :
    synced (runOps st ops) ∧ 0 ≤ (runOps st ops).session.balance :=
  runOps_preserve (fun s => synced s ∧ 0 ≤ s.session.balance)
    (fun s op hp => ⟨synced_applyOp s op hp.1, balance_nonneg_applyOp s op hp.1 hp.2⟩)
    ops st h

/-- Balance bookkeeping: running any operation sequence from a synced state moves
the cached balance by exactly the successful deposits minus the successful
withdrawals. -/
theorem runOps_balance (ops : List Op) :
    ∀ st : SysState, synced st →
      (runOps st ops).session.balance =
        st.session.balance + depositTotal st ops - withdrawTotal st ops := by
  induction ops with
  | nil =>
    intro st _
    simp [runOps, depositTotal, withdrawTotal]
  | cons op ops ih =>
    intro st hs
    have hrec := ih (applyOp st op) (synced_applyOp st op hs)
    simp only [runOps, depositTotal, withdrawTotal]
    rw [hrec]
    have hstep : (applyOp st op).session.balance =
        st.session.balance + opDeposited op - opWithdrawn st.session.balance op := by
      cases op with
      | depositOp a s t =>
        simp only [applyOp, deposit, opDeposited, opWithdrawn]
        split_ifs with hle
        · simp
        · simp
      | withdrawOp a r t =>
        simp only [applyOp, withdraw, opDeposited, opWithdrawn]
        split_ifs with h1 h2
        · simp
        · simp
        · simp only
          ring
      | checkBalanceOp t =>
        simp only [applyOp, check_balance, opDeposited, opWithdrawn]
        cases hfa : findAccount st.db st.session.account_id with
        | none => simp [hfa]
        | some a => simp [hfa, hs a hfa]
    rw [hstep]
    ring

/-! ### The claims -/

/-- C1: on any account state reachable from the account's creation, a withdrawal
request whose amount strictly exceeds the stored balance fails with
InsufficientFunds and returns the whole state unchanged: the stored balance is
untouched and no transaction row is appended. -/
theorem C1_insufficient_withdrawal_rejected (db : DB) (holder bank : String) (t0 : Nat)
    (ops : List Op) (amount : Rat) (reason : String) (now : Nat) (acct : Account)
    (hfresh : FreshFor db holder)
    (hacct : findAccount (runOps (BankAccount_init db holder bank t0) ops).db
        (runOps (BankAccount_init db holder bank t0) ops).session.account_id = some acct)
    (hgt : acct.balance < amount) :
    withdraw (runOps (BankAccount_init db holder bank t0) ops) amount reason now =
      (runOps (BankAccount_init db holder bank t0) ops, .err .insufficientFunds) := by
  obtain ⟨hsync, hnn⟩ := syncedNonneg_runOps ops _ (synced_init db holder bank t0 hfresh)
  have hbal := hsync acct hacct
  rw [hbal] at hgt
  unfold withdraw
  rw [if_neg (not_le.mpr (by linarith)), if_pos hgt]

/-- C2: starting from the creation of an account, after any sequence of deposit,
withdrawal and balance-check operations the balance (cached, and stored whenever
the row is looked up) equals the sum of the successful deposit amounts minus the
sum of the successful withdrawal amounts; failed operations and balance checks
contribute 0. -/
theorem C2_balance_is_signed_sum (db : DB) (holder bank : String) (t0 : Nat)
    (ops : List Op) (hfresh : FreshFor db holder) :
    (runOps (BankAccount_init db holder bank t0) ops).session.balance =
        depositTotal (BankAccount_init db holder bank t0) ops -
          withdrawTotal (BankAccount_init db holder bank t0) ops ∧
      ∀ a, findAccount (runOps (BankAccount_init db holder bank t0) ops).db
            (runOps (BankAccount_init db holder bank t0) ops).session.account_id = some a →
        a.balance =
          depositTotal (BankAccount_init db holder bank t0) ops -
            withdrawTotal (BankAccount_init db holder bank t0) ops := by
  have h0 := synced_init db holder bank t0 hfresh
  have hbal := runOps_balance ops _ h0.1
  have hz : (BankAccount_init db holder bank t0).session.balance = 0 := by
    rw [BankAccount_init_fresh db holder bank t0 hfresh]
  rw [hz, zero_add] at hbal
  obtain ⟨hsync, -⟩ := syncedNonneg_runOps ops _ h0
  exact ⟨hbal, fun a ha => by rw [hsync a ha, hbal]⟩

/-- C3: a deposit or withdrawal request with a non-positive amount fails with
InvalidAmount and is a no-op on all stored state: the returned state is exactly
the input state, so the balance and the transaction table are unchanged. -/
theorem C3_nonpositive_amount_rejected (st : SysState) (amount : Rat)
    (source reason : String) (now : Nat) (h : amount ≤ 0) :
    deposit st amount source now = (st, .err .invalidAmount) ∧
      withdraw st amount reason now = (st, .err .invalidAmount) := by
  constructor
  · unfold deposit
    rw [if_pos h]
  · unfold withdraw
    rw [if_pos h]

/-- C4: every successful deposit, withdrawal or balance check appends exactly one
transaction row, and that row's `balance_after` is exactly the balance stored in
the account row immediately after the call. -/
theorem C4_one_row_per_successful_call (st : SysState) (acct : Account) (amount : Rat)
    (source reason : String) (now : Nat)
    (hacct : findAccount st.db st.session.account_id = some acct) :
    (¬ amount ≤ 0 →
      (deposit st amount source now).1.db.transactions =
          st.db.transactions ++
            [⟨st.db.next_transaction_id, st.session.account_id, "Deposit", some amount,
              some source, st.session.balance + amount, now⟩] ∧
        findAccount (deposit st amount source now).1.db
            (deposit st amount source now).1.session.account_id =
          some { acct with balance := st.session.balance + amount }) ∧
    (¬ amount ≤ 0 → ¬ st.session.balance < amount →
      (withdraw st amount reason now).1.db.transactions =
          st.db.transactions ++
            [⟨st.db.next_transaction_id, st.session.account_id, "Withdrawal", some amount,
              some reason, st.session.balance - amount, now⟩] ∧
        findAccount (withdraw st amount reason now).1.db
            (withdraw st amount reason now).1.session.account_id =
          some { acct with balance := st.session.balance - amount }) ∧
    ((check_balance st now).1.db.transactions =
        st.db.transactions ++
          [⟨st.db.next_transaction_id, st.session.account_id, "Balance Check", none, none,
            acct.balance, now⟩] ∧
      findAccount (check_balance st now).1.db
          (check_balance st now).1.session.account_id = some acct) := by
  refine ⟨?_, ?_, ?_⟩
  · intro hpos
    unfold deposit
    rw [if_neg hpos]
    constructor
    · rfl
    · rw [findAccount_appendTransaction, findAccount_updateBalance, hacct]
      rfl
  · intro hpos hfund
    unfold withdraw
    rw [if_neg hpos, if_neg hfund]
    constructor
    · rfl
    · rw [findAccount_appendTransaction, findAccount_updateBalance, hacct]
      rfl
  · unfold check_balance
    rw [hacct]
    exact ⟨rfl, hacct⟩

/-- C5: when the holder does not yet exist, `create_or_retrieve_account` inserts
exactly one account row, with balance 0; a second call with the same holder name
creates nothing further and returns the same account id. -/
theorem C5_no_duplicate_account (db : DB) (holder bank bank2 : String) (t1 t2 : Nat)
    (hnone : findByHolder db holder = none) :
    (create_or_retrieve_account db holder bank t1).db.accounts =
        db.accounts ++ [⟨db.next_account_id, holder, bank, 0, t1⟩] ∧
      (create_or_retrieve_account (create_or_retrieve_account db holder bank t1).db
          holder bank2 t2).db =
        (create_or_retrieve_account db holder bank t1).db ∧
      (create_or_retrieve_account (create_or_retrieve_account db holder bank t1).db
          holder bank2 t2).account_id =
        (create_or_retrieve_account db holder bank t1).account_id := by
  have h1 : create_or_retrieve_account db holder bank t1 =
      ⟨{ db with
          accounts := db.accounts ++ [⟨db.next_account_id, holder, bank, 0, t1⟩],
          next_account_id := db.next_account_id + 1 },
        db.next_account_id, 0, true⟩ := by
    unfold create_or_retrieve_account
    rw [hnone]
  have h2 : findByHolder
      { db with
        accounts := db.accounts ++ [⟨db.next_account_id, holder, bank, 0, t1⟩],
        next_account_id := db.next_account_id + 1 } holder =
      some ⟨db.next_account_id, holder, bank, 0, t1⟩ := by
    unfold findByHolder
    simp only
    rw [find?_append_none _ _ _ hnone,
      List.find?_cons_of_pos (p := fun x : Account => x.account_holder == holder) _ (by simp)]
  rw [h1]
  refine ⟨rfl, ?_, ?_⟩ <;>
  · unfold create_or_retrieve_account
    rw [h2]

/-- C6: `check_balance` re-reads the stored balance (ignoring the session's cached
value), appends one row with action `'Balance Check'`, NULL amount, NULL
source/reason, `balance_after` equal to the stored balance, and reports that
stored balance. -/
theorem C6_check_balance_rereads_storage (st : SysState) (acct : Account) (now : Nat)
    (hacct : findAccount st.db st.session.account_id = some acct) :
    check_balance st now =
      (⟨appendTransaction st.db st.session.account_id "Balance Check" none none
          acct.balance now,
        { st.session with balance := acct.balance }⟩, acct.balance) := by
  unfold check_balance
  rw [hacct]

/-- C9: starting from a newly created account, the balance guards make a negative
balance unreachable: after any operation sequence both the cached and the stored
balance are at least 0. -/
theorem C9_balance_never_negative (db : DB) (holder bank : String) (t0 : Nat)
    (ops : List Op) (hfresh : FreshFor db holder) :
    0 ≤ (runOps (BankAccount_init db holder bank t0) ops).session.balance ∧
      ∀ a, findAccount (runOps (BankAccount_init db holder bank t0) ops).db
            (runOps (BankAccount_init db holder bank t0) ops).session.account_id = some a →
        0 ≤ a.balance := by
  obtain ⟨hsync, hnn⟩ := syncedNonneg_runOps ops _ (synced_init db holder bank t0 hfresh)
  refine ⟨hnn, fun a ha => ?_⟩
  rw [hsync a ha]
  exact hnn

/-- C10: when the holder already exists, `create_or_retrieve_account` matches on
the holder name alone and modifies nothing: the database, in particular the
stored `bank_name`, is returned unchanged even when a different bank name is
supplied, and the existing row's id and balance are handed back. -/
theorem C10_existing_account_untouched (db : DB) (holder bank : String) (now : Nat)
    (acct : Account) (hfound : findByHolder db holder = some acct) :
    (create_or_retrieve_account db holder bank now).db = db ∧
      (create_or_retrieve_account db holder bank now).account_id = acct.account_id ∧
      (create_or_retrieve_account db holder bank now).balance = acct.balance := by
  unfold create_or_retrieve_account
  rw [hfound]
  exact ⟨rfl, rfl, rfl⟩

/-- C7 (amended): on any reachable state, the history query returns exactly the
account's rows, in non-increasing `transaction_date` order; rows with equal
dates appear in ascending `transaction_id` order (the stable scan order), and an
account with no rows yields the empty list, not an error. -/
theorem C7_history_order (db : DB) (holder bank : String) (t0 : Nat) (ops : List Op)
    (hdb : TxInv db) :
    (get_transaction_history (runOps (BankAccount_init db holder bank t0) ops)).Perm
        ((runOps (BankAccount_init db holder bank t0) ops).db.transactions.filter
          (fun t => t.account_id ==
            (runOps (BankAccount_init db holder bank t0) ops).session.account_id)) ∧
      (get_transaction_history (runOps (BankAccount_init db holder bank t0) ops)).Pairwise
        (fun a b => b.transaction_date ≤ a.transaction_date) ∧
      (get_transaction_history (runOps (BankAccount_init db holder bank t0) ops)).Pairwise
        (fun a b => a.transaction_date = b.transaction_date →
          a.transaction_id < b.transaction_id) ∧
      ((runOps (BankAccount_init db holder bank t0) ops).db.transactions.filter
          (fun t => t.account_id ==
            (runOps (BankAccount_init db holder bank t0) ops).session.account_id) = [] →
        get_transaction_history (runOps (BankAccount_init db holder bank t0) ops) = []) := by
  have hTx : TxInv (runOps (BankAccount_init db holder bank t0) ops).db :=
    runOps_preserve (fun s => TxInv s.db) txInv_applyOp ops _
      (txInv_init db holder bank t0 hdb)
  unfold TxInv at hTx
  have hfilt := List.Pairwise.filter
    (fun t => t.account_id ==
      (runOps (BankAccount_init db holder bank t0) ops).session.account_id) hTx.1
  have hR := pairwise_sortByDateDesc _ hfilt
  refine ⟨sortByDateDesc_perm _, ?_, ?_, ?_⟩
  · refine hR.imp ?_
    intro a b hab
    rcases hab with hlt | ⟨heq, _⟩
    · exact le_of_lt hlt
    · exact le_of_eq heq.symm
  · refine hR.imp ?_
    intro a b hab heq
    rcases hab with hlt | ⟨_, hid⟩
    · rw [heq] at hlt
      exact absurd hlt (lt_irrefl _)
    · exact hid
  · intro h
    unfold get_transaction_history
    rw [h]
    rfl

/-- A run producing two transaction rows with the same timestamp (two deposits
within the same clock second). -/
def C7cexState : SysState :=
  runOps (BankAccount_init initDB "Carol" "Vault" 0)
    [.depositOp 10 "Salary" 5, .depositOp 20 "Gift" 5]

/-- C7 counterexample: the query orders only by `transaction_date`, so two rows
with equal dates come back in ascending `transaction_id` order, not the
descending order the claim states. -/
theorem C7_descending_tie_cex :
    (get_transaction_history C7cexState).map (fun t => t.transaction_id) = [1, 2] ∧
      (get_transaction_history C7cexState).map (fun t => t.transaction_date) = [5, 5] ∧
      ¬ (get_transaction_history C7cexState).Pairwise
          (fun a b => a.transaction_date = b.transaction_date →
            b.transaction_id < a.transaction_id) := by
  refine ⟨rfl, rfl, ?_⟩
  intro hpw
  have := (List.pairwise_cons.mp hpw).1
  have h2 := this (get_transaction_history C7cexState)[1] (by
    exact List.mem_cons_self _ _)
  exact absurd (h2 rfl) (by decide)

/-- C8: every transaction row ever written carries an action from the closed set
`validActions`; and the operations produce exactly these values: a successful
deposit appends action `'Deposit'`, a successful withdrawal `'Withdrawal'`, and
a balance check `'Balance Check'`. -/
theorem C8_actions_closed_set (db : DB) (holder bank : String) (t0 : Nat)
    (ops : List Op) (st : SysState) (amount : Rat) (source reason : String) (now : Nat)
    (hdb : ActionsOk db) :
    ActionsOk (runOps (BankAccount_init db holder bank t0) ops).db ∧
      (¬ amount ≤ 0 →
        (deposit st amount source now).1.db.transactions.map (fun t => t.action) =
          st.db.transactions.map (fun t => t.action) ++ ["Deposit"]) ∧
      (¬ amount ≤ 0 → ¬ st.session.balance < amount →
        (withdraw st amount reason now).1.db.transactions.map (fun t => t.action) =
          st.db.transactions.map (fun t => t.action) ++ ["Withdrawal"]) ∧
      (check_balance st now).1.db.transactions.map (fun t => t.action) =
        st.db.transactions.map (fun t => t.action) ++ ["Balance Check"] := by
  refine ⟨runOps_preserve (fun s => ActionsOk s.db) actionsOk_applyOp ops _
    (actionsOk_init db holder bank t0 hdb), ?_, ?_, ?_⟩
  · intro hpos
    unfold deposit
    rw [if_neg hpos]
    simp [appendTransaction, updateBalance]
  · intro hpos hfund
    unfold withdraw
    rw [if_neg hpos, if_neg hfund]
    simp [appendTransaction, updateBalance]
  · unfold check_balance
    simp [appendTransaction]

/-! ### Concrete witnesses -/

/-- Witness for C1: on a fresh account with balance 0, withdrawing 5 fails with
InsufficientFunds and changes nothing. -/
theorem C1_witness :
    FreshFor initDB "Alice" ∧
      findAccount (runOps (BankAccount_init initDB "Alice" "First Bank" 0) []).db
          (runOps (BankAccount_init initDB "Alice" "First Bank" 0) []).session.account_id =
        some ⟨1, "Alice", "First Bank", 0, 0⟩ ∧
      (⟨1, "Alice", "First Bank", 0, 0⟩ : Account).balance < 5 ∧
      withdraw (runOps (BankAccount_init initDB "Alice" "First Bank" 0) []) 5 "Rent" 1 =
        (runOps (BankAccount_init initDB "Alice" "First Bank" 0) [],
          .err .insufficientFunds) :=
  ⟨⟨rfl, by simp [initDB]⟩, rfl, by show (0 : Rat) < 5; norm_num,
    C1_insufficient_withdrawal_rejected initDB "Alice" "First Bank" 0 [] 5 "Rent" 1
      ⟨1, "Alice", "First Bank", 0, 0⟩ ⟨rfl, by simp [initDB]⟩ rfl
      (by show (0 : Rat) < 5; norm_num)⟩

/-- Witness for C2: the deposit/withdraw/check scenario from the specification. -/
theorem C2_witness :
    FreshFor initDB "Alice" ∧
      ((runOps (BankAccount_init initDB "Alice" "First Bank" 0)
            [.depositOp 100 "Salary" 1, .withdrawOp 30 "Groceries" 2,
              .checkBalanceOp 3]).session.balance =
          depositTotal (BankAccount_init initDB "Alice" "First Bank" 0)
              [.depositOp 100 "Salary" 1, .withdrawOp 30 "Groceries" 2,
                .checkBalanceOp 3] -
            withdrawTotal (BankAccount_init initDB "Alice" "First Bank" 0)
              [.depositOp 100 "Salary" 1, .withdrawOp 30 "Groceries" 2,
                .checkBalanceOp 3] ∧
        ∀ a, findAccount (runOps (BankAccount_init initDB "Alice" "First Bank" 0)
              [.depositOp 100 "Salary" 1, .withdrawOp 30 "Groceries" 2,
                .checkBalanceOp 3]).db
            (runOps (BankAccount_init initDB "Alice" "First Bank" 0)
              [.depositOp 100 "Salary" 1, .withdrawOp 30 "Groceries" 2,
                .checkBalanceOp 3]).session.account_id = some a →
          a.balance =
            depositTotal (BankAccount_init initDB "Alice" "First Bank" 0)
                [.depositOp 100 "Salary" 1, .withdrawOp 30 "Groceries" 2,
                  .checkBalanceOp 3] -
              withdrawTotal (BankAccount_init initDB "Alice" "First Bank" 0)
                [.depositOp 100 "Salary" 1, .withdrawOp 30 "Groceries" 2,
                  .checkBalanceOp 3]) :=
  ⟨⟨rfl, by simp [initDB]⟩,
    C2_balance_is_signed_sum initDB "Alice" "First Bank" 0
      [.depositOp 100 "Salary" 1, .withdrawOp 30 "Groceries" 2, .checkBalanceOp 3]
      ⟨rfl, by simp [initDB]⟩⟩

/-- Witness for C3: a deposit and a withdrawal of -3 both fail with InvalidAmount
and leave the state untouched. -/
theorem C3_witness :
    ((-3 : Rat) ≤ 0) ∧
      (deposit ⟨⟨[⟨1, "Bob", "Bank", 7, 0⟩], [], 2, 1⟩, ⟨"Bob", "Bank", 1, 7⟩⟩
            (-3) "Salary" 1 =
          (⟨⟨[⟨1, "Bob", "Bank", 7, 0⟩], [], 2, 1⟩, ⟨"Bob", "Bank", 1, 7⟩⟩,
            .err .invalidAmount) ∧
        withdraw ⟨⟨[⟨1, "Bob", "Bank", 7, 0⟩], [], 2, 1⟩, ⟨"Bob", "Bank", 1, 7⟩⟩
            (-3) "Bills" 1 =
          (⟨⟨[⟨1, "Bob", "Bank", 7, 0⟩], [], 2, 1⟩, ⟨"Bob", "Bank", 1, 7⟩⟩,
            .err .invalidAmount)) :=
  ⟨by norm_num,
    C3_nonpositive_amount_rejected
      ⟨⟨[⟨1, "Bob", "Bank", 7, 0⟩], [], 2, 1⟩, ⟨"Bob", "Bank", 1, 7⟩⟩
      (-3) "Salary" "Bills" 1 (by norm_num)⟩

/-- Witness for C4: a concrete account with stored balance 7. -/
theorem C4_witness :
    findAccount (⟨⟨[⟨1, "Bob", "Bank", 7, 0⟩], [], 2, 1⟩,
          ⟨"Bob", "Bank", 1, 7⟩⟩ : SysState).db
        (⟨⟨[⟨1, "Bob", "Bank", 7, 0⟩], [], 2, 1⟩,
          ⟨"Bob", "Bank", 1, 7⟩⟩ : SysState).session.account_id =
      some ⟨1, "Bob", "Bank", 7, 0⟩ ∧
      ((¬ (4 : Rat) ≤ 0 →
        (deposit ⟨⟨[⟨1, "Bob", "Bank", 7, 0⟩], [], 2, 1⟩, ⟨"Bob", "Bank", 1, 7⟩⟩
              4 "Salary" 9).1.db.transactions =
            (⟨⟨[⟨1, "Bob", "Bank", 7, 0⟩], [], 2, 1⟩,
              ⟨"Bob", "Bank", 1, 7⟩⟩ : SysState).db.transactions ++
              [⟨1, 1, "Deposit", some 4, some "Salary", 7 + 4, 9⟩] ∧
          findAccount (deposit ⟨⟨[⟨1, "Bob", "Bank", 7, 0⟩], [], 2, 1⟩,
                ⟨"Bob", "Bank", 1, 7⟩⟩ 4 "Salary" 9).1.db
              (deposit ⟨⟨[⟨1, "Bob", "Bank", 7, 0⟩], [], 2, 1⟩,
                ⟨"Bob", "Bank", 1, 7⟩⟩ 4 "Salary" 9).1.session.account_id =
            some ⟨1, "Bob", "Bank", 7 + 4, 0⟩) ∧
      (¬ (4 : Rat) ≤ 0 → ¬ (7 : Rat) < 4 →
        (withdraw ⟨⟨[⟨1, "Bob", "Bank", 7, 0⟩], [], 2, 1⟩, ⟨"Bob", "Bank", 1, 7⟩⟩
              4 "Bills" 9).1.db.transactions =
            (⟨⟨[⟨1, "Bob", "Bank", 7, 0⟩], [], 2, 1⟩,
              ⟨"Bob", "Bank", 1, 7⟩⟩ : SysState).db.transactions ++
              [⟨1, 1, "Withdrawal", some 4, some "Bills", 7 - 4, 9⟩] ∧
          findAccount (withdraw ⟨⟨[⟨1, "Bob", "Bank", 7, 0⟩], [], 2, 1⟩,
                ⟨"Bob", "Bank", 1, 7⟩⟩ 4 "Bills" 9).1.db
              (withdraw ⟨⟨[⟨1, "Bob", "Bank", 7, 0⟩], [], 2, 1⟩,
                ⟨"Bob", "Bank", 1, 7⟩⟩ 4 "Bills" 9).1.session.account_id =
            some ⟨1, "Bob", "Bank", 7 - 4, 0⟩) ∧
      ((check_balance ⟨⟨[⟨1, "Bob", "Bank", 7, 0⟩], [], 2, 1⟩,
            ⟨"Bob", "Bank", 1, 7⟩⟩ 9).1.db.transactions =
          (⟨⟨[⟨1, "Bob", "Bank", 7, 0⟩], [], 2, 1⟩,
            ⟨"Bob", "Bank", 1, 7⟩⟩ : SysState).db.transactions ++
            [⟨1, 1, "Balance Check", none, none, 7, 9⟩] ∧
        findAccount (check_balance ⟨⟨[⟨1, "Bob", "Bank", 7, 0⟩], [], 2, 1⟩,
              ⟨"Bob", "Bank", 1, 7⟩⟩ 9).1.db
            (check_balance ⟨⟨[⟨1, "Bob", "Bank", 7, 0⟩], [], 2, 1⟩,
              ⟨"Bob", "Bank", 1, 7⟩⟩ 9).1.session.account_id =
          some ⟨1, "Bob", "Bank", 7, 0⟩)) :=
  ⟨rfl,
    C4_one_row_per_successful_call
      ⟨⟨[⟨1, "Bob", "Bank", 7, 0⟩], [], 2, 1⟩, ⟨"Bob", "Bank", 1, 7⟩⟩
      ⟨1, "Bob", "Bank", 7, 0⟩ 4 "Salary" "Bills" 9 rfl⟩

/-- Witness for C5: creating "Ann" twice on a fresh database. -/
theorem C5_witness :
    findByHolder initDB "Ann" = none ∧
      ((create_or_retrieve_account initDB "Ann" "Bank" 0).db.accounts =
          initDB.accounts ++ [⟨initDB.next_account_id, "Ann", "Bank", 0, 0⟩] ∧
        (create_or_retrieve_account (create_or_retrieve_account initDB "Ann" "Bank" 0).db
            "Ann" "Other Bank" 1).db =
          (create_or_retrieve_account initDB "Ann" "Bank" 0).db ∧
        (create_or_retrieve_account (create_or_retrieve_account initDB "Ann" "Bank" 0).db
            "Ann" "Other Bank" 1).account_id =
          (create_or_retrieve_account initDB "Ann" "Bank" 0).account_id) :=
  ⟨rfl, C5_no_duplicate_account initDB "Ann" "Bank" "Other Bank" 0 1 rfl⟩

/-- Witness for C6: the session cache says 999 but storage says 42; the balance
check reports and logs 42. -/
theorem C6_witness :
    findAccount (⟨⟨[⟨1, "Eve", "Bank", 42, 0⟩], [], 2, 1⟩,
          ⟨"Eve", "Bank", 1, 999⟩⟩ : SysState).db
        (⟨⟨[⟨1, "Eve", "Bank", 42, 0⟩], [], 2, 1⟩,
          ⟨"Eve", "Bank", 1, 999⟩⟩ : SysState).session.account_id =
      some ⟨1, "Eve", "Bank", 42, 0⟩ ∧
      check_balance ⟨⟨[⟨1, "Eve", "Bank", 42, 0⟩], [], 2, 1⟩, ⟨"Eve", "Bank", 1, 999⟩⟩ 7 =
        (⟨⟨[⟨1, "Eve", "Bank", 42, 0⟩], [⟨1, 1, "Balance Check", none, none, 42, 7⟩], 2, 2⟩,
          ⟨"Eve", "Bank", 1, 42⟩⟩, 42) :=
  ⟨rfl,
    C6_check_balance_rereads_storage
      ⟨⟨[⟨1, "Eve", "Bank", 42, 0⟩], [], 2, 1⟩, ⟨"Eve", "Bank", 1, 999⟩⟩
      ⟨1, "Eve", "Bank", 42, 0⟩ 7 rfl⟩

/-- Witness for C7: a run with a single balance check on a fresh database. -/
theorem C7_witness :
    TxInv initDB ∧
      ((get_transaction_history (runOps (BankAccount_init initDB "Carol" "Vault" 0)
            [.checkBalanceOp 1])).Perm
          ((runOps (BankAccount_init initDB "Carol" "Vault" 0)
              [.checkBalanceOp 1]).db.transactions.filter
            (fun t => t.account_id ==
              (runOps (BankAccount_init initDB "Carol" "Vault" 0)
                [.checkBalanceOp 1]).session.account_id)) ∧
        (get_transaction_history (runOps (BankAccount_init initDB "Carol" "Vault" 0)
            [.checkBalanceOp 1])).Pairwise
          (fun a b => b.transaction_date ≤ a.transaction_date) ∧
        (get_transaction_history (runOps (BankAccount_init initDB "Carol" "Vault" 0)
            [.checkBalanceOp 1])).Pairwise
          (fun a b => a.transaction_date = b.transaction_date →
            a.transaction_id < b.transaction_id) ∧
        ((runOps (BankAccount_init initDB "Carol" "Vault" 0)
              [.checkBalanceOp 1]).db.transactions.filter
            (fun t => t.account_id ==
              (runOps (BankAccount_init initDB "Carol" "Vault" 0)
                [.checkBalanceOp 1]).session.account_id) = [] →
          get_transaction_history (runOps (BankAccount_init initDB "Carol" "Vault" 0)
            [.checkBalanceOp 1]) = [])) :=
  ⟨⟨List.Pairwise.nil, by simp [initDB]⟩,
    C7_history_order initDB "Carol" "Vault" 0 [.checkBalanceOp 1]
      ⟨List.Pairwise.nil, by simp [initDB]⟩⟩

/-- Witness for C8: a fresh database and the concrete account with balance 7. -/
theorem C8_witness :
    ActionsOk initDB ∧
      (ActionsOk (runOps (BankAccount_init initDB "Alice" "Bank" 0) []).db ∧
        (¬ (4 : Rat) ≤ 0 →
          (deposit ⟨⟨[⟨1, "Bob", "Bank", 7, 0⟩], [], 2, 1⟩, ⟨"Bob", "Bank", 1, 7⟩⟩
                4 "Salary" 9).1.db.transactions.map (fun t => t.action) =
            (⟨⟨[⟨1, "Bob", "Bank", 7, 0⟩], [], 2, 1⟩,
              ⟨"Bob", "Bank", 1, 7⟩⟩ : SysState).db.transactions.map (fun t => t.action) ++
              ["Deposit"]) ∧
        (¬ (4 : Rat) ≤ 0 → ¬ (7 : Rat) < 4 →
          (withdraw ⟨⟨[⟨1, "Bob", "Bank", 7, 0⟩], [], 2, 1⟩, ⟨"Bob", "Bank", 1, 7⟩⟩
                4 "Bills" 9).1.db.transactions.map (fun t => t.action) =
            (⟨⟨[⟨1, "Bob", "Bank", 7, 0⟩], [], 2, 1⟩,
              ⟨"Bob", "Bank", 1, 7⟩⟩ : SysState).db.transactions.map (fun t => t.action) ++
              ["Withdrawal"]) ∧
        (check_balance ⟨⟨[⟨1, "Bob", "Bank", 7, 0⟩], [], 2, 1⟩,
              ⟨"Bob", "Bank", 1, 7⟩⟩ 9).1.db.transactions.map (fun t => t.action) =
          (⟨⟨[⟨1, "Bob", "Bank", 7, 0⟩], [], 2, 1⟩,
            ⟨"Bob", "Bank", 1, 7⟩⟩ : SysState).db.transactions.map (fun t => t.action) ++
            ["Balance Check"]) :=
  ⟨fun t ht => absurd ht (List.not_mem_nil t),
    C8_actions_closed_set initDB "Alice" "Bank" 0 []
      ⟨⟨[⟨1, "Bob", "Bank", 7, 0⟩], [], 2, 1⟩, ⟨"Bob", "Bank", 1, 7⟩⟩
      4 "Salary" "Bills" 9 (fun t ht => absurd ht (List.not_mem_nil t))⟩

/-- Witness for C9: the spec scenario keeps the balance non-negative. -/
theorem C9_witness :
    FreshFor initDB "Alice" ∧
      (0 ≤ (runOps (BankAccount_init initDB "Alice" "First Bank" 0)
            [.depositOp 100 "Salary" 1, .withdrawOp 30 "Groceries" 2,
              .checkBalanceOp 3]).session.balance ∧
        ∀ a, findAccount (runOps (BankAccount_init initDB "Alice" "First Bank" 0)
              [.depositOp 100 "Salary" 1, .withdrawOp 30 "Groceries" 2,
                .checkBalanceOp 3]).db
            (runOps (BankAccount_init initDB "Alice" "First Bank" 0)
              [.depositOp 100 "Salary" 1, .withdrawOp 30 "Groceries" 2,
                .checkBalanceOp 3]).session.account_id = some a →
          0 ≤ a.balance) :=
  ⟨⟨rfl, by simp [initDB]⟩,
    C9_balance_never_negative initDB "Alice" "First Bank" 0
      [.depositOp 100 "Salary" 1, .withdrawOp 30 "Groceries" 2, .checkBalanceOp 3]
      ⟨rfl, by simp [initDB]⟩⟩

/-- Witness for C10: looking "Dan" up with a different bank name changes nothing. -/
theorem C10_witness :
    findByHolder ⟨[⟨1, "Dan", "Old Bank", 5, 0⟩], [], 2, 1⟩ "Dan" =
        some ⟨1, "Dan", "Old Bank", 5, 0⟩ ∧
      ((create_or_retrieve_account ⟨[⟨1, "Dan", "Old Bank", 5, 0⟩], [], 2, 1⟩
            "Dan" "New Bank" 9).db =
          ⟨[⟨1, "Dan", "Old Bank", 5, 0⟩], [], 2, 1⟩ ∧
        (create_or_retrieve_account ⟨[⟨1, "Dan", "Old Bank", 5, 0⟩], [], 2, 1⟩
            "Dan" "New Bank" 9).account_id = 1 ∧
        (create_or_retrieve_account ⟨[⟨1, "Dan", "Old Bank", 5, 0⟩], [], 2, 1⟩
            "Dan" "New Bank" 9).balance = 5) :=
  ⟨by decide,
    C10_existing_account_untouched ⟨[⟨1, "Dan", "Old Bank", 5, 0⟩], [], 2, 1⟩
      "Dan" "New Bank" 9 ⟨1, "Dan", "Old Bank", 5, 0⟩ (by decide)⟩
